import Mathlib

/-!
Verification of the lost-and-found reporting application (`src/main.py`).

The file embeds the item-intake pipeline and its adapters shallowly:

* JSON-like values returned by the remote classifier are modelled by `PyVal`,
  and the partial Python operations used on them (`x[0]`, `x[k]`, `k in x`,
  `x.lower()`) by `Except Unit`-valued functions, where `.error` stands for a
  raised exception, caught by the `try`/`except` of `auto_tag_item`.
* The remote calls themselves (the classifier POST, the image-host upload,
  the database insert) are abstracted by an `Env` record supplying either a
  response value or the fact that the call raised.
* `str.lower()` is modelled by mapping `Char.toLower` over the characters
  (faithful for the ASCII labels at play).
-/

namespace FindersNotKeepers

/-- JSON-like Python values, as produced by `response.json()` in `main.py`.
Object keys are strings, as for any value parsed from JSON. -/
inductive PyVal where
  | pynone
  | pybool (b : Bool)
  | pyint (n : Int)
  | str (s : String)
  | list (xs : List PyVal)
  | dict (kvs : List (String × PyVal))

mutual

/-- Structural equality on `PyVal`, modelling Python `==` on JSON values
(numeric/bool cross-type equalities are irrelevant to the values at play). -/
def pyBeq : PyVal → PyVal → Bool
  | .pynone, .pynone => true
  | .pybool a, .pybool b => a == b
  | .pyint a, .pyint b => a == b
  | .str a, .str b => a == b
  | .list xs, .list ys => pyBeqList xs ys
  | .dict xs, .dict ys => pyBeqKVs xs ys
  | _, _ => false

/-- Elementwise equality of Python lists. -/
def pyBeqList : List PyVal → List PyVal → Bool
  | [], [] => true
  | x :: xs, y :: ys => pyBeq x y && pyBeqList xs ys
  | _, _ => false

/-- Elementwise equality of Python dict entries. -/
def pyBeqKVs : List (String × PyVal) → List (String × PyVal) → Bool
  | [], [] => true
  | (k, v) :: xs, (k2, v2) :: ys => k == k2 && pyBeq v v2 && pyBeqKVs xs ys
  | _, _ => false

end

/-- Python `v[i]` for a non-negative integer literal index, as in
`result["labels"][0]` and `result[0]`: lists index positionally
(`IndexError` out of range), strings yield the one-character string
(`IndexError` out of range), dicts raise `KeyError` (an integer is not among
the string keys of a JSON object), everything else raises `TypeError`. -/
def pyIndex : PyVal → Nat → Except Unit PyVal
  | .list xs, i =>
    match xs.get? i with
    | some v => .ok v
    | none => .error ()
  | .str s, i =>
    match s.data.get? i with
    | some c => .ok (.str (String.mk [c]))
    | none => .error ()
  | _, _ => .error ()

/-- Python `v[k]` for a string key, as in `result["labels"]` and
`result[0]["label"]`: only a dict succeeds (first binding of the key; a
missing key raises `KeyError`); a list or a string indexed by a string, or a
non-subscriptable value, raises `TypeError`. -/
def pyGetKey : PyVal → String → Except Unit PyVal
  | .dict kvs, k =>
    match kvs.find? (fun kv => kv.1 == k) with
    | some kv => .ok kv.2
    | none => .error ()
  | _, _ => .error ()

/-- Python `x in v`, as in `"labels" in result` and `"label" in result[0]`:
key membership for dicts (never an error), element membership for lists,
substring containment for strings (`TypeError` if the left operand is not a
string), `TypeError` for non-containers. -/
def pyContains : PyVal → PyVal → Except Unit Bool
  | .dict kvs, .str k => .ok (kvs.any (fun kv => kv.1 == k))
  | .dict _, _ => .ok false
  | .list xs, x => .ok (xs.any (fun y => pyBeq x y))
  | .str s, .str sub => .ok (decide (sub.data <:+: s.data))
  | .str _, _ => .error ()
  | _, _ => .error ()

/-- Model of Python `str.lower()` on the characters of a string. -/
def pyStrLower (s : String) : String :=
  String.mk (s.data.map Char.toLower)

/-- Python `v.lower()`: only a string has the method; anything else raises
`AttributeError`. -/
def pyLower : PyVal → Except Unit String
  | .str s => .ok (pyStrLower s)
  | _ => .error ()

/-- The fixed closed list of candidate category labels sent to the
zero-shot classifier (`labels` in `auto_tag_item`). -/
def candidateLabels : List String :=
  ["electronics", "clothing", "accessories", "documents", "books",
   "sports_equipment", "toys", "keys", "tools",
   "wallets_and_purses", "bags_and_backpacks", "jewelry", "watches",
   "glasses_and_sunglasses", "umbrellas", "cosmetics_and_makeup",
   "id_cards_and_badges", "credit_cards", "driver_license", "passport", "tickets",
   "stationery", "notebooks", "laptops_and_tablets", "usb_drives",
   "calculators", "school_supplies", "office_supplies",
   "bicycles", "helmets", "vehicle_keys",
   "food_containers", "bottles", "miscellaneous"]

/-- The text sent to the classifier: `f"{item_name} {description}"`. -/
def classifyText (item_name description : String) : String :=
  item_name ++ " " ++ description

/-- The body of the `try:` block of `auto_tag_item`, applied to the parsed
JSON value of the classifier response:

```
if isinstance(result, dict) and "labels" in result:
    return result["labels"][0].lower()
elif isinstance(result, list) and "label" in result[0]:
    return result[0]["label"].lower()
else:
    return "miscellaneous"
```

`.error ()` is an exception escaping the block (caught by the `except`). -/
def classifyBody (result : PyVal) : Except Unit String :=
  match result with
  | .dict kvs =>
    if kvs.any (fun kv => kv.1 == "labels") then
      match pyGetKey (.dict kvs) "labels" with
      | .error e => .error e
      | .ok v =>
        match pyIndex v 0 with
        | .error e => .error e
        | .ok x => pyLower x
    else
      .ok "miscellaneous"
  | .list xs =>
    match pyIndex (.list xs) 0 with
    | .error e => .error e
    | .ok first =>
      match pyContains first (.str "label") with
      | .error e => .error e
      | .ok b =>
        if b then
          match pyGetKey first "label" with
          | .error e => .error e
          | .ok v => pyLower v
        else
          .ok "miscellaneous"
  | _ => .ok "miscellaneous"

/-- `auto_tag_item(item_name, description)` of `main.py`. The remote POST is
abstracted by `resp`: `none` when `requests.post` or `response.json()`
raised, `some result` for the parsed JSON value. Every exception inside the
`try:` block ends in the `except` branch returning `"miscellaneous"`. -/
def auto_tag_item (item_name description : String) (resp : Option PyVal) : String :=
  let _text := classifyText item_name description
  match resp with
  | none => "miscellaneous"
  | some result =>
    match classifyBody result with
    | .ok s => s
    | .error _ => "miscellaneous"

/-- A response shape the spec recognizes: an object with a `labels` field, or
a list whose first element is an object with a `label` field. -/
def recognizedShape : PyVal → Bool
  | .dict kvs => kvs.any (fun kv => kv.1 == "labels")
  | .list (.dict kvs :: _) => kvs.any (fun kv => kv.1 == "label")
  | _ => false

/-- A row of the `items` table, in the column order of the schema of
`init_db` (which is also the hard-coded column list of
`view_item_detail`). `description`, `image_path` and `tag` are nullable
columns, hence `Option`; `created_at` is the storage-assigned timestamp,
modelled as a `Nat`. -/
structure Row where
  id : Nat
  item_type : String
  item_name : String
  description : Option String
  location : String
  contact_info : String
  image_path : Option String
  tag : Option String
  created_at : Nat
deriving DecidableEq, Repr

/-- The `ItemCreate` pydantic model after successful validation.
`image_url` and `tag` start out as `None` and are mutated by
`submit_item`. -/
structure ItemCreate where
  item_type : String
  item_name : String
  description : Option String
  location : String
  contact_info : String
  image_url : Option String := none
  tag : Option String := none
deriving DecidableEq, Repr

/-- The raw form fields of a `POST /submit-item` request: `none` models an
absent form field (`description` is the only optional one). -/
structure RawForm where
  item_type : Option String
  item_name : Option String
  description : Option String
  location : Option String
  contact_info : Option String
deriving DecidableEq, Repr

/-- How a submission fails validation before the handler body runs:

* `missingField`: a required `Form(...)` parameter of `ItemCreate.as_form`
  is absent, so FastAPI raises `RequestValidationError`, which its installed
  handler turns into a 422 client error;
* `invalidValue`: all parameters are present but `ItemCreate(...)` raises a
  pydantic `ValidationError` inside the dependency body; FastAPI installs no
  handler for that class, so it escapes to the server-error middleware as a
  500 server error. -/
inductive VError where
  | missingField
  | invalidValue
deriving DecidableEq, Repr

/-- The field constraints of the `ItemCreate` pydantic model:
`item_type` restricted to the literal values `"lost"`/`"found"`,
`item_name` 2–100 characters, `description` at most 500 characters when
given, `location` at least 2 characters, `contact_info` unconstrained. -/
def validItemFields (ty nm : String) (desc : Option String) (loc : String) : Bool :=
  (ty == "lost" || ty == "found") &&
  decide (2 ≤ nm.length) && decide (nm.length ≤ 100) &&
  decide ((desc.getD "").length ≤ 500) &&
  decide (2 ≤ loc.length)

/-- `ItemCreate.as_form` as resolved by FastAPI: first the presence of each
required form parameter, then the pydantic constraints. -/
def itemCreate_as_form (f : RawForm) : Except VError ItemCreate :=
  match f.item_type, f.item_name, f.location, f.contact_info with
  | some ty, some nm, some loc, some ci =>
    if validItemFields ty nm f.description loc then
      .ok { item_type := ty, item_name := nm, description := f.description,
            location := loc, contact_info := ci }
    else
      .error .invalidValue
  | _, _, _, _ => .error .missingField

/-- The uploaded file of the optional `image` form field; only its
`filename` drives control flow (`""` also models a `None` filename, both
being falsy in `if image and image.filename:`). -/
structure PyFile where
  filename : String
deriving DecidableEq, Repr

/-- The environment of one submission request: the outcomes of the three
remote calls.

* `uploadResult`: what `cloudinary.uploader.upload` does when called —
  `.error` for a raised exception, `.ok (some u)` for a response dict whose
  `secure_url` is `u`, `.ok none` for a response dict without `secure_url`;
* `classifierResp`: `none` if `requests.post`/`.json()` raises, otherwise
  the parsed JSON value;
* `insertRaises`: whether the database insert raises;
* `now`: the storage timestamp `CURRENT_TIMESTAMP` of this request. -/
structure Env where
  uploadResult : Except Unit (Option String)
  classifierResp : Option PyVal
  insertRaises : Bool
  now : Nat

/-- `save_uploaded_image(file)`: uploads when `file.filename` is truthy and
returns `upload_result.get("secure_url", "")`, else returns `""` without
network contact. The second component counts the Cloudinary calls made. -/
def save_uploaded_image (env : Env) (file : PyFile) : Except Unit String × Nat :=
  if file.filename ≠ "" then
    (match env.uploadResult with
     | .error e => .error e
     | .ok r => .ok (r.getD ""), 1)
  else
    (.ok "", 0)

/-- The observable side effects of handling one submission request. -/
structure Effects where
  uploadCalls : Nat
  classifyCalls : Nat
  insertAttempts : Nat
deriving DecidableEq, Repr

/-- The HTTP response of `POST /submit-item`. -/
inductive Response where
  | redirect (status : Nat) (location : String)
  | clientError (status : Nat)
  | serverError (status : Nat)
deriving DecidableEq, Repr

/-- Whether a response is a client (4xx) error. -/
def Response.isClientError : Response → Bool
  | .clientError _ => true
  | _ => false

/-- The tail of `submit_item` after the image step: classify, set the tag,
insert the row (columns as in the `INSERT` statement; `id` and `created_at`
assigned by storage), answer with the 303 redirect. An exception of the
insert aborts the request with a server error and no new row. -/
def submit_after_image (env : Env) (item : ItemCreate) (upCalls : Nat)
    (db : List Row) : Response × List Row × Effects :=
  let tag := auto_tag_item item.item_name (item.description.getD "") env.classifierResp
  let item2 := { item with tag := some tag }
  if env.insertRaises then
    (.serverError 500, db, ⟨upCalls, 1, 1⟩)
  else
    (.redirect 303 "/view-items",
     db ++ [{ id := db.length + 1, item_type := item2.item_type,
              item_name := item2.item_name, description := item2.description,
              location := item2.location, contact_info := item2.contact_info,
              image_path := item2.image_url, tag := item2.tag,
              created_at := env.now }],
     ⟨upCalls, 1, 1⟩)

/-- `POST /submit-item`. Validation failures abort before the handler body
(422 for a missing field, 500 for a pydantic error in the form dependency);
then `if image and image.filename:` optionally uploads, setting
`item.image_url` (an upload exception aborts with a server error); then
classification and insert. When no image is taken, `item.image_url` keeps
its `None` default — the local `image_url = ""` of the handler is never
read on that path — and the insert stores `item.image_url`. -/
def submit_item (env : Env) (form : RawForm) (image : Option PyFile)
    (db : List Row) : Response × List Row × Effects :=
  match itemCreate_as_form form with
  | .error .missingField => (.clientError 422, db, ⟨0, 0, 0⟩)
  | .error .invalidValue => (.serverError 500, db, ⟨0, 0, 0⟩)
  | .ok item =>
    match image with
    | some f =>
      if f.filename ≠ "" then
        match save_uploaded_image env f with
        | (.error _, c) => (.serverError 500, db, ⟨c, 0, 0⟩)
        | (.ok u, c) => submit_after_image env { item with image_url := some u } c db
      else
        submit_after_image env item 0 db
    | none => submit_after_image env item 0 db

/-- PostgreSQL `LIKE` pattern matching over characters: `%` matches any
sequence, `_` matches exactly one character, a backslash escapes the
following pattern character. (A pattern ending in a bare escape character is
an error in PostgreSQL; the patterns `view_items` builds always end in `%`,
so that case is unreachable and mapped to `false`.) -/
def likeMatch : List Char → List Char → Bool
  | [], t => t.isEmpty
  | c :: p, t =>
    if c = '%' then
      (likeMatch p t ||
        match t with
        | [] => false
        | _ :: t2 => likeMatch (c :: p) t2)
    else if c = '_' then
      match t with
      | [] => false
      | _ :: t2 => likeMatch p t2
    else if c = '\\' then
      match p with
      | [] => false
      | c2 :: p2 =>
        match t with
        | [] => false
        | c3 :: t2 => c2 == c3 && likeMatch p2 t2
    else
      match t with
      | [] => false
      | c3 :: t2 => c == c3 && likeMatch p t2
termination_by p t => (p.length, t.length)

/-- `a ILIKE pattern`: `LIKE` on the lower-cased pattern and text. -/
def ilike (text pattern : String) : Bool :=
  likeMatch (pattern.data.map Char.toLower) (text.data.map Char.toLower)

/-- The `WHERE item_name ILIKE %s OR location ILIKE %s` condition of
`view_items`, with the parameter `f"%{search}%"`. -/
def rowMatchesSearch (search : String) (r : Row) : Bool :=
  ilike r.item_name ("%" ++ search ++ "%") || ilike r.location ("%" ++ search ++ "%")

/-- The `ORDER BY created_at DESC` comparison. -/
def byCreatedDesc (a b : Row) : Bool :=
  decide (b.created_at ≤ a.created_at)

/-- `GET /view-items`: all rows when `search` is falsy (the empty string),
otherwise the rows matching the `ILIKE` condition, ordered by `created_at`
descending (ties in an unspecified order; the model picks a stable merge
sort). Returns the rows handed to the template. -/
def view_items (db : List Row) (search : String) : List Row :=
  (if search = "" then db else db.filter (rowMatchesSearch search)).mergeSort byCreatedDesc

/-- The outcome of `GET /item/{item_id}`: the 404 `HTTPException` or the
item rendered with exactly the stored columns. -/
inductive DetailResult where
  | notFound (status : Nat)
  | page (item : Row)
deriving DecidableEq, Repr

/-- `GET /item/{item_id}`: `SELECT * FROM items WHERE id = %s`, `fetchone`,
404 when no row, else the row. -/
def view_item_detail (db : List Row) (item_id : Nat) : DetailResult :=
  match db.find? (fun r => r.id == item_id) with
  | none => .notFound 404
  | some r => .page r

/-- The raw label string that the parse chain of `classifyBody` reaches and
lowercases, when it reaches one: the first element of the `labels` field for
the object shape, the `label` value of the first list element for the list
shape. `none` when the chain raises or falls to the `else` branch. Mirrors
the structure of `classifyBody` step by step. -/
def parsedLabel : PyVal → Option String
  | .dict kvs =>
    if kvs.any (fun kv => kv.1 == "labels") then
      match pyGetKey (.dict kvs) "labels" with
      | .error _ => none
      | .ok v =>
        match pyIndex v 0 with
        | .ok (.str s) => some s
        | _ => none
    else
      none
  | .list xs =>
    match pyIndex (.list xs) 0 with
    | .error _ => none
    | .ok first =>
      match pyContains first (.str "label") with
      | .ok true =>
        match pyGetKey first "label" with
        | .ok (.str s) => some s
        | _ => none
      | _ => none
  | _ => none

/-- Modelled from the spec's words (section 4.1 / claim C5): `hay`
case-insensitively contains `needle` as a substring. Used to compare the
`ILIKE`-based filter of `view_items` against the specified behaviour. -/
def containsCI (hay needle : String) : Bool :=
  decide ((needle.data.map Char.toLower) <:+: (hay.data.map Char.toLower))

/-- `c` is none of the three `LIKE` metacharacters `%`, `_`, `\`. -/
def noMetaChar (c : Char) : Bool :=
  !(c == '%') && !(c == '_') && !(c == '\\')

/-- The search string uses no `LIKE` metacharacter. -/
def noLikeMeta (s : String) : Bool :=
  s.data.all noMetaChar

/-- A classifier response of the object shape,
`{labels: ["documents", "books"]}`. -/
def docsBooksResp : PyVal :=
  .dict [("labels", .list [.str "documents", .str "books"])]

/-- A benign request environment: upload succeeds, the classifier answers
with `docsBooksResp`, the insert succeeds. -/
def baseEnv : Env :=
  { uploadResult := .ok (some "https://img.example/x.png"),
    classifierResp := some docsBooksResp, insertRaises := false, now := 5 }

/-- The valid example submission of spec section 8. -/
def blueWalletForm : RawForm :=
  { item_type := some "lost", item_name := some "Blue Wallet",
    description := none, location := some "Library",
    contact_info := some "a@b.com" }

/-- `blueWalletForm` with an `item_type` outside `{lost, found}`. -/
def wrongTypeForm : RawForm :=
  { blueWalletForm with item_type := some "stolen" }

/-- `baseEnv` with a classifier response whose top label is outside the
candidate list. -/
def zebraEnv : Env :=
  { baseEnv with classifierResp := some (.dict [("labels", .list [.str "zebra"])]) }

/-- `baseEnv` with the classifier answering an empty JSON list. -/
def emptyListEnv : Env :=
  { baseEnv with classifierResp := some (.list []) }

/-- `baseEnv` with a classifier response of unrecognized shape. -/
def strEnv : Env :=
  { baseEnv with classifierResp := some (.str "busy") }

/-- A stored row with short lower-case name and location, for exercising
the search filter. -/
def rowAB : Row :=
  { id := 1, item_type := "lost", item_name := "ab", description := none,
    location := "xy", contact_info := "c@d.com", image_path := none,
    tag := some "keys", created_at := 3 }

/-- A stored row matching the search `"wallet"`. -/
def rowWallet : Row :=
  { id := 2, item_type := "found", item_name := "Blue Wallet",
    description := some "leather", location := "Library",
    contact_info := "a@b.com", image_path := none,
    tag := some "wallets_and_purses", created_at := 7 }

/-- The HTTP rejection of a validation failure: 422 for the
`RequestValidationError` of a missing field, 500 for the untranslated
pydantic `ValidationError` of an invalid value. -/
def rejectionOf : VError → Response
  | .missingField => .clientError 422
  | .invalidValue => .serverError 500

lemma toLower_def (c : Char) :
    Char.toLower c = if c.toNat ≥ 65 ∧ c.toNat ≤ 90 then Char.ofNat (c.toNat + 32) else c := rfl

lemma toNat_ofNat_lt {n : Nat} (h : n < 55296) : (Char.ofNat n).toNat = n := by
  rw [Char.ofNat, dif_pos (Or.inl h)]
  rfl

lemma toLower_eq_self_or (c : Char) :
    Char.toLower c = c ∨ (97 ≤ (Char.toLower c).toNat ∧ (Char.toLower c).toNat ≤ 122) := by
  rw [toLower_def]
  by_cases h : c.toNat ≥ 65 ∧ c.toNat ≤ 90
  · right
    rw [if_pos h, toNat_ofNat_lt (by omega)]
    omega
  · left
    rw [if_neg h]

lemma toLower_toLower (c : Char) : Char.toLower (Char.toLower c) = Char.toLower c := by
  rcases toLower_eq_self_or c with h | h
  · rw [h]; exact h
  · rw [toLower_def (Char.toLower c), if_neg (by omega)]

lemma pyStrLower_idem (s : String) : pyStrLower (pyStrLower s) = pyStrLower s := by
  unfold pyStrLower
  simp [List.map_map, Function.comp_def, toLower_toLower]

lemma pyGetKey_any {kvs : List (String × PyVal)} {k : String} {v : PyVal}
    (h : pyGetKey (.dict kvs) k = .ok v) : kvs.any (fun kv => kv.1 == k) = true := by
  cases hf : kvs.find? (fun kv => kv.1 == k) with
  | none => simp [pyGetKey, hf] at h
  | some kv =>
    have hp := List.find?_some hf
    exact List.any_eq_true.mpr ⟨kv, List.mem_of_find?_eq_some hf, hp⟩

lemma classifyBody_characterization (v : PyVal) :
    classifyBody v = .error () ∨ classifyBody v = .ok "miscellaneous" ∨
    ∃ raw, parsedLabel v = some raw ∧ classifyBody v = .ok (pyStrLower raw) := by
  cases v with
  | pynone => right; left; rfl
  | pybool b => right; left; rfl
  | pyint n => right; left; rfl
  | str s => right; left; rfl
  | dict kvs =>
    by_cases hany : kvs.any (fun kv => kv.1 == "labels") = true
    · cases hk : pyGetKey (.dict kvs) "labels" with
      | error e => left; cases e; simp [classifyBody, hany, hk]
      | ok v2 =>
        cases hi : pyIndex v2 0 with
        | error e => left; cases e; simp [classifyBody, hany, hk, hi]
        | ok x =>
          cases x with
          | str s =>
            right; right
            exact ⟨s, by simp [parsedLabel, hany, hk, hi], by simp [classifyBody, hany, hk, hi, pyLower]⟩
          | pynone => left; simp [classifyBody, hany, hk, hi, pyLower]
          | pybool b => left; simp [classifyBody, hany, hk, hi, pyLower]
          | pyint n => left; simp [classifyBody, hany, hk, hi, pyLower]
          | list ys => left; simp [classifyBody, hany, hk, hi, pyLower]
          | dict kvs2 => left; simp [classifyBody, hany, hk, hi, pyLower]
    · right; left
      simp [classifyBody, hany]
  | list xs =>
    cases xs with
    | nil => left; simp [classifyBody, pyIndex]
    | cons x xs2 =>
      have hfirst : pyIndex (.list (x :: xs2)) 0 = .ok x := by simp [pyIndex]
      cases hc : pyContains x (.str "label") with
      | error e => left; cases e; simp [classifyBody, hfirst, hc]
      | ok b =>
        cases b with
        | false => right; left; simp [classifyBody, hfirst, hc]
        | true =>
          cases hg : pyGetKey x "label" with
          | error e => left; cases e; simp [classifyBody, hfirst, hc, hg]
          | ok v2 =>
            cases v2 with
            | str s =>
              right; right
              exact ⟨s, by simp [parsedLabel, hfirst, hc, hg], by simp [classifyBody, hfirst, hc, hg, pyLower]⟩
            | pynone => left; simp [classifyBody, hfirst, hc, hg, pyLower]
            | pybool b2 => left; simp [classifyBody, hfirst, hc, hg, pyLower]
            | pyint n => left; simp [classifyBody, hfirst, hc, hg, pyLower]
            | list ys => left; simp [classifyBody, hfirst, hc, hg, pyLower]
            | dict kvs2 => left; simp [classifyBody, hfirst, hc, hg, pyLower]

lemma classifyBody_unrecognized (v : PyVal) (h : recognizedShape v = false) :
    classifyBody v = .ok "miscellaneous" ∨ classifyBody v = .error () := by
  cases v with
  | pynone => left; rfl
  | pybool b => left; rfl
  | pyint n => left; rfl
  | str s => left; rfl
  | dict kvs =>
    left
    simp only [recognizedShape] at h
    simp [classifyBody, h]
  | list xs =>
    cases xs with
    | nil => right; simp [classifyBody, pyIndex]
    | cons x xs2 =>
      have hfirst : pyIndex (.list (x :: xs2)) 0 = .ok x := by simp [pyIndex]
      cases x with
      | pynone => right; simp [classifyBody, hfirst, pyContains]
      | pybool b => right; simp [classifyBody, hfirst, pyContains]
      | pyint n => right; simp [classifyBody, hfirst, pyContains]
      | str s =>
        have hc : pyContains (.str s) (.str "label") = .ok (decide (("label".data) <:+: s.data)) := rfl
        cases hd : decide (("label".data) <:+: s.data) with
        | false => left; simp [classifyBody, hfirst, hc, hd]
        | true => right; simp [classifyBody, hfirst, hc, hd, pyGetKey]
      | list ys =>
        have hc : pyContains (.list ys) (.str "label") = .ok (ys.any (fun y => pyBeq (.str "label") y)) := rfl
        cases hd : ys.any (fun y => pyBeq (.str "label") y) with
        | false => left; simp [classifyBody, hfirst, hc, hd]
        | true => right; simp [classifyBody, hfirst, hc, hd, pyGetKey]
      | dict kvs =>
        simp only [recognizedShape] at h
        left
        have hc : pyContains (.dict kvs) (.str "label") = .ok (kvs.any (fun kv => kv.1 == "label")) := rfl
        simp [classifyBody, hfirst, hc, h]

lemma submit_after_image_new_row {env : Env} {item : ItemCreate} {upCalls : Nat}
    {db : List Row} {r : Row}
    (h : (submit_after_image env item upCalls db).2.1 = db ++ [r]) :
    r.tag = some (auto_tag_item item.item_name (item.description.getD "") env.classifierResp) ∧
    r.image_path = item.image_url ∧ r.id = db.length + 1 ∧ r.created_at = env.now := by
  by_cases hi : env.insertRaises
  · simp [submit_after_image, hi] at h
  · simp only [submit_after_image, hi, if_false, Bool.false_eq_true] at h
    have h2 := List.append_cancel_left h
    have h3 : _ = r := (List.cons.injEq _ _ _ _).mp h2 |>.1
    subst h3
    exact ⟨rfl, rfl, rfl, rfl⟩

lemma submit_item_new_row {env : Env} {form : RawForm} {image : Option PyFile}
    {db : List Row} {r : Row}
    (h : (submit_item env form image db).2.1 = db ++ [r]) :
    ∃ item, itemCreate_as_form form = .ok item ∧
      r.tag = some (auto_tag_item item.item_name (item.description.getD "") env.classifierResp) := by
  unfold submit_item at h
  cases hv : itemCreate_as_form form with
  | error e =>
    cases e <;> rw [hv] at h <;> simp at h
  | ok item =>
    rw [hv] at h
    cases image with
    | none =>
      exact ⟨item, rfl, (submit_after_image_new_row h).1⟩
    | some f =>
      by_cases hf : f.filename = ""
      · simp only [hf, ne_eq, not_true_eq_false, if_false] at h
        exact ⟨item, rfl, (submit_after_image_new_row h).1⟩
      · simp only [ne_eq, hf, not_false_eq_true, if_true] at h
        cases hs : save_uploaded_image env f with
        | mk res c =>
          rw [hs] at h
          cases res with
          | error e => simp at h
          | ok u => exact ⟨item, rfl, (submit_after_image_new_row h).1⟩

/-- C1: on a classifier-call exception or a response of unrecognized shape,
`auto_tag_item` returns `"miscellaneous"` without propagating the error, and
a submission handled under such a classifier outcome stores
`tag = "miscellaneous"` in its new row. -/
theorem classify_fallback_on_error_or_unrecognized :
    (∀ (nm d : String) (resp : Option PyVal),
       (resp = none ∨ ∃ v, resp = some v ∧ recognizedShape v = false) →
       auto_tag_item nm d resp = "miscellaneous") ∧
    (∀ (env : Env) (form : RawForm) (image : Option PyFile) (db : List Row) (r : Row),
       (env.classifierResp = none ∨
        ∃ v, env.classifierResp = some v ∧ recognizedShape v = false) →
       (submit_item env form image db).2.1 = db ++ [r] →
       r.tag = some "miscellaneous") := by
  have hmain : ∀ (nm d : String) (resp : Option PyVal),
      (resp = none ∨ ∃ v, resp = some v ∧ recognizedShape v = false) →
      auto_tag_item nm d resp = "miscellaneous" := by
    intro nm d resp hr
    rcases hr with rfl | ⟨v, rfl, hv⟩
    · rfl
    · rcases classifyBody_unrecognized v hv with h | h <;> simp [auto_tag_item, h]
  refine ⟨hmain, ?_⟩
  intro env form image db r hr h
  obtain ⟨item, _, htag⟩ := submit_item_new_row h
  rw [htag, hmain _ _ _ hr]

/-- Closed instance of C1: a raised classifier call yields the fallback
label, and the row stored for a submission whose classifier returned the
unrecognized shape `"busy"` carries the fallback tag. -/
theorem classify_fallback_witness :
    auto_tag_item "Blue Wallet" "" none = "miscellaneous" ∧
    ({ id := 1, item_type := "lost", item_name := "Blue Wallet",
       description := none, location := "Library",
       contact_info := "a@b.com", image_path := none,
       tag := some "miscellaneous", created_at := 5 } : Row).tag =
      some "miscellaneous" :=
  ⟨classify_fallback_on_error_or_unrecognized.1 "Blue Wallet" "" none (Or.inl rfl),
   classify_fallback_on_error_or_unrecognized.2 strEnv blueWalletForm none [] _
     (Or.inr ⟨.str "busy", rfl, by decide⟩) (by decide)⟩

/-- C9: on the empty-list response the index access `result[0]` raises, the
exception is caught (`classifyBody` ends in the error branch), classify
still totals to `"miscellaneous"`, and a submission receiving that response
is not crashed: it completes with the redirect and stores the fallback
tag. -/
theorem classify_total_on_empty_list :
    classifyBody (.list []) = .error () ∧
    auto_tag_item "Blue Wallet" "" (some (.list [])) = "miscellaneous" ∧
    submit_item emptyListEnv blueWalletForm none [] =
      (.redirect 303 "/view-items",
       [{ id := 1, item_type := "lost", item_name := "Blue Wallet",
          description := none, location := "Library",
          contact_info := "a@b.com", image_path := none,
          tag := some "miscellaneous", created_at := 5 }],
       ⟨0, 1, 1⟩) := by
  refine ⟨rfl, rfl, by decide⟩

/-- C4: an object response with a `labels` field stores the lower-cased
first element of the field; a list response whose first element has a
`label` field stores that element's lower-cased `label`; in particular
`{labels: ["documents", "books"]}` classifies as `"documents"`. -/
theorem classify_parses_both_shapes :
    (∀ (nm d : String) (kvs : List (String × PyVal)) (s : String) (rest : List PyVal),
       pyGetKey (.dict kvs) "labels" = .ok (.list (.str s :: rest)) →
       auto_tag_item nm d (some (.dict kvs)) = pyStrLower s) ∧
    (∀ (nm d : String) (kvs : List (String × PyVal)) (s : String) (xs : List PyVal),
       pyGetKey (.dict kvs) "label" = .ok (.str s) →
       auto_tag_item nm d (some (.list (.dict kvs :: xs))) = pyStrLower s) ∧
    (∀ nm d : String, auto_tag_item nm d (some docsBooksResp) = "documents") := by
  refine ⟨?_, ?_, ?_⟩
  · intro nm d kvs s rest h
    have hany := pyGetKey_any h
    simp [auto_tag_item, classifyBody, hany, h, pyIndex, pyLower]
  · intro nm d kvs s xs h
    have hany := pyGetKey_any h
    have hfirst : pyIndex (.list (.dict kvs :: xs)) 0 = .ok (.dict kvs) := by simp [pyIndex]
    have hc : pyContains (.dict kvs) (.str "label") = .ok true := by
      simp [pyContains, hany]
    simp [auto_tag_item, classifyBody, hfirst, hc, h, pyLower]
  · intro nm d
    rfl

/-- Closed instance of C4: both response shapes at concrete inputs. -/
theorem classify_parses_both_shapes_witness :
    auto_tag_item "a" "b" (some (.dict [("labels", .list [.str "Documents", .str "books"])])) =
      pyStrLower "Documents" ∧
    auto_tag_item "a" "b" (some (.list [.dict [("label", .str "wallets_and_purses")]])) =
      pyStrLower "wallets_and_purses" ∧
    auto_tag_item "a" "b" (some docsBooksResp) = "documents" :=
  ⟨classify_parses_both_shapes.1 "a" "b" _ "Documents" [.str "books"] (rfl),
   classify_parses_both_shapes.2.1 "a" "b" _ "wallets_and_purses" [] (rfl),
   classify_parses_both_shapes.2.2 "a" "b"⟩

/-- C10: the string returned by classify is already lowercase — applying the
lower-casing of the code to the result of `auto_tag_item` leaves it
unchanged, for every classifier outcome. -/
theorem classify_result_already_lowercase (nm d : String) (resp : Option PyVal) :
    pyStrLower (auto_tag_item nm d resp) = auto_tag_item nm d resp := by
  cases resp with
  | none =>
    show pyStrLower "miscellaneous" = "miscellaneous"
    decide
  | some v =>
    rcases classifyBody_characterization v with h | h | ⟨raw, _, h⟩
    · simp [auto_tag_item, h]; decide
    · simp [auto_tag_item, h]; decide
    · simp [auto_tag_item, h, pyStrLower_idem]

/-- C3 (amended): every row stored by a successful submission has a non-null
tag, whatever the classifier did; and provided every label the parse chain
extracts from the classifier response lowercases into the candidate list
(as a classifier honouring the submitted `candidate_labels` guarantees),
the stored tag is a member of the candidate list — which contains the
fallback `"miscellaneous"`. The code itself does not enforce membership,
see the counterexample. -/
theorem stored_tag_nonnull_and_in_candidates {env : Env} {form : RawForm}
    {image : Option PyFile} {db : List Row} {r : Row}
    (h : (submit_item env form image db).2.1 = db ++ [r]) :
    r.tag ≠ none ∧
    ((∀ v raw, env.classifierResp = some v → parsedLabel v = some raw →
        pyStrLower raw ∈ candidateLabels) →
      ∃ t, r.tag = some t ∧ t ∈ candidateLabels) := by
  obtain ⟨item, _, htag⟩ := submit_item_new_row h
  refine ⟨by rw [htag]; exact fun hx => Option.noConfusion hx, ?_⟩
  intro hresp
  refine ⟨_, htag, ?_⟩
  cases hc : env.classifierResp with
  | none =>
    simp only [auto_tag_item, hc]
    decide
  | some v =>
    rcases classifyBody_characterization v with hb | hb | ⟨raw, hp, hb⟩
    · simp only [auto_tag_item, hc, hb]
      decide
    · simp only [auto_tag_item, hc, hb]
      decide
    · simp only [auto_tag_item, hc, hb]
      exact hresp v raw hc hp

/-- Counterexample to C3 as stated: a classifier response whose top label
`"zebra"` is outside the candidate list is stored verbatim — the pipeline
does not restrict the stored tag to the closed candidate set. -/
theorem stored_tag_outside_candidates_cex :
    (submit_item zebraEnv blueWalletForm none []).2.1 =
      [{ id := 1, item_type := "lost", item_name := "Blue Wallet",
         description := none, location := "Library",
         contact_info := "a@b.com", image_path := none,
         tag := some "zebra", created_at := 5 }] ∧
    "zebra" ∉ candidateLabels ∧ "zebra" ≠ "miscellaneous" := by
  refine ⟨by decide, by decide, by decide⟩

/-- Closed instance of C3 (amended): non-nullness at the deviant `zebraEnv`
run, where the classifier contract fails, and candidate-set membership at
the contract-honouring `docsBooksResp` environment. -/
theorem stored_tag_nonnull_witness :
    ({ id := 1, item_type := "lost", item_name := "Blue Wallet",
       description := none, location := "Library",
       contact_info := "a@b.com", image_path := none,
       tag := some "zebra", created_at := 5 } : Row).tag ≠ none ∧
    ∃ t, ({ id := 1, item_type := "lost", item_name := "Blue Wallet",
            description := none, location := "Library",
            contact_info := "a@b.com", image_path := none,
            tag := some "documents", created_at := 5 } : Row).tag = some t ∧
         t ∈ candidateLabels :=
  ⟨(stored_tag_nonnull_and_in_candidates
      (show (submit_item zebraEnv blueWalletForm none []).2.1 =
          [] ++ [{ id := 1, item_type := "lost", item_name := "Blue Wallet",
                   description := none, location := "Library",
                   contact_info := "a@b.com", image_path := none,
                   tag := some "zebra", created_at := 5 }] from by decide)).1,
   (stored_tag_nonnull_and_in_candidates
      (show (submit_item baseEnv blueWalletForm none []).2.1 =
          [] ++ [{ id := 1, item_type := "lost", item_name := "Blue Wallet",
                   description := none, location := "Library",
                   contact_info := "a@b.com", image_path := none,
                   tag := some "documents", created_at := 5 }] from by decide)).2
     (fun v raw hv hp => by
       have hv2 : some docsBooksResp = some v := hv
       cases Option.some.inj hv2
       have hp2 : some "documents" = some raw := hp
       cases Option.some.inj hp2
       decide)⟩

/-- C2: for the valid example submission without an image (and likewise with
an image whose filename is empty), no upload call occurs; but the stored
`image_path` is `None` (SQL `NULL`), not the empty string the claim and the
spec's example promise: the handler's local `image_url = ""` is never
written to `item.image_url`, and the insert stores `item.image_url`. The
standalone adapter does return `""` without an upload when the filename is
empty. -/
theorem no_image_stores_null_image_path :
    save_uploaded_image baseEnv ⟨""⟩ = (.ok "", 0) ∧
    submit_item baseEnv blueWalletForm none [] =
      (.redirect 303 "/view-items",
       [{ id := 1, item_type := "lost", item_name := "Blue Wallet",
          description := none, location := "Library",
          contact_info := "a@b.com", image_path := none,
          tag := some "documents", created_at := 5 }],
       ⟨0, 1, 1⟩) ∧
    submit_item baseEnv blueWalletForm (some ⟨""⟩) [] =
      (.redirect 303 "/view-items",
       [{ id := 1, item_type := "lost", item_name := "Blue Wallet",
          description := none, location := "Library",
          contact_info := "a@b.com", image_path := none,
          tag := some "documents", created_at := 5 }],
       ⟨0, 1, 1⟩) ∧
    (none : Option String) ≠ some "" := by
  refine ⟨rfl, by decide, by decide, by decide⟩

/-- C8: a submission that passes validation and whose pipeline steps all
succeed (the upload, when one is attempted, and the insert) is answered
with a 303 redirect to `/view-items`. -/
theorem submit_success_redirects {env : Env} {form : RawForm}
    {image : Option PyFile} {db : List Row} {item : ItemCreate}
    (hv : itemCreate_as_form form = .ok item)
    (hup : ∀ f, image = some f → f.filename ≠ "" → ∃ u, env.uploadResult = .ok u)
    (hins : env.insertRaises = false) :
    (submit_item env form image db).1 = .redirect 303 "/view-items" := by
  unfold submit_item
  rw [hv]
  have hafter : ∀ (it : ItemCreate) (c : Nat),
      (submit_after_image env it c db).1 = .redirect 303 "/view-items" := by
    intro it c
    simp [submit_after_image, hins]
  cases image with
  | none => exact hafter item 0
  | some f =>
    by_cases hf : f.filename = ""
    · simp only [hf, ne_eq, not_true_eq_false, if_false]
      exact hafter item 0
    · obtain ⟨u, hu⟩ := hup f rfl hf
      simp only [ne_eq, hf, not_false_eq_true, if_true, save_uploaded_image, hu]
      exact hafter _ 1

/-- Closed instance of C8: the spec's example submission succeeds with the
303 redirect. -/
theorem submit_success_redirects_witness :
    (submit_item baseEnv blueWalletForm (some ⟨"wallet.png"⟩) []).1 =
      .redirect 303 "/view-items" :=
  submit_success_redirects
    (show itemCreate_as_form blueWalletForm =
        .ok { item_type := "lost", item_name := "Blue Wallet", description := none,
              location := "Library", contact_info := "a@b.com" } from rfl)
    (fun f hf hne => ⟨some "https://img.example/x.png", by cases hf; rfl⟩) rfl

/-- C6 (amended): a submission failing validation is rejected before any
side effect — no upload call, no classifier call, no insert attempt, the
stored rows unchanged. A missing required form field is rejected with the
422 client error; a present field with an invalid value makes the pydantic
`ValidationError` escape the form dependency untranslated, so the rejection
is the 500 server error rather than a client error. -/
theorem invalid_submission_rejected_before_effects {form : RawForm} {e : VError}
    (env : Env) (image : Option PyFile) (db : List Row)
    (h : itemCreate_as_form form = .error e) :
    submit_item env form image db = (rejectionOf e, db, ⟨0, 0, 0⟩) := by
  cases e with
  | missingField => unfold submit_item; rw [h]; rfl
  | invalidValue => unfold submit_item; rw [h]; rfl

/-- Counterexample to C6 as stated: the submission whose `item_type` is
`"stolen"` (all fields present) is rejected with the 500 server error, not
a client error — though still with no side effect. -/
theorem invalid_value_not_client_error_cex :
    itemCreate_as_form wrongTypeForm = .error .invalidValue ∧
    submit_item baseEnv wrongTypeForm none [] = (.serverError 500, [], ⟨0, 0, 0⟩) ∧
    (submit_item baseEnv wrongTypeForm none []).1.isClientError = false := by
  refine ⟨rfl, by decide, by decide⟩

/-- Closed instance of C6 (amended): a missing `contact_info` gives the 422
client error with no effects; the invalid `item_type` gives the 500 server
error with no effects. -/
theorem invalid_submission_rejected_witness :
    submit_item baseEnv { blueWalletForm with contact_info := none } none [] =
      (Response.clientError 422, [], ⟨0, 0, 0⟩) ∧
    submit_item baseEnv wrongTypeForm none [] =
      (Response.serverError 500, [], ⟨0, 0, 0⟩) :=
  ⟨invalid_submission_rejected_before_effects baseEnv none []
     (show itemCreate_as_form { blueWalletForm with contact_info := none } =
        .error .missingField from rfl),
   invalid_submission_rejected_before_effects baseEnv none []
     (show itemCreate_as_form wrongTypeForm = .error .invalidValue from rfl)⟩

/-- C7: looking up an id held by no stored item renders the 404 not-found
error; looking up a stored id renders exactly the stored row (all nine
columns), the first row with that id as returned by `fetchone`. -/
theorem item_detail_found_or_404 (db : List Row) (i : Nat) :
    ((∀ r ∈ db, r.id ≠ i) → view_item_detail db i = .notFound 404) ∧
    (∀ r, db.find? (fun x => x.id == i) = some r → view_item_detail db i = .page r) := by
  constructor
  · intro hnone
    have hf : db.find? (fun x => x.id == i) = none := by
      rw [List.find?_eq_none]
      intro x hx
      simpa using hnone x hx
    simp [view_item_detail, hf]
  · intro r hr
    simp [view_item_detail, hr]

/-- Closed instance of C7: a miss on the empty store and a hit on a
singleton store. -/
theorem item_detail_witness :
    view_item_detail [rowAB] 9 = .notFound 404 ∧
    view_item_detail [rowAB, rowWallet] 2 = .page rowWallet :=
  ⟨(item_detail_found_or_404 [rowAB] 9).1 (by decide),
   (item_detail_found_or_404 [rowAB, rowWallet] 2).2 rowWallet (by decide)⟩

lemma likeMatch_nil (t : List Char) : likeMatch [] t = t.isEmpty := by
  rw [likeMatch.eq_def]

lemma likeMatch_pct_nil (p : List Char) : likeMatch ('%' :: p) [] = likeMatch p [] := by
  rw [likeMatch.eq_def]
  simp

lemma likeMatch_pct_cons (p : List Char) (c : Char) (t : List Char) :
    likeMatch ('%' :: p) (c :: t) = (likeMatch p (c :: t) || likeMatch ('%' :: p) t) := by
  conv_lhs => rw [likeMatch.eq_def]
  simp

lemma likeMatch_lit_nil {c : Char} (h : c ≠ '%') (p : List Char) :
    likeMatch (c :: p) [] = false := by
  rw [likeMatch.eq_def]
  simp only [if_neg h]
  by_cases h2 : c = '_'
  · simp [h2]
  · by_cases h3 : c = '\\'
    · simp only [if_neg h2, if_pos h3]
      cases p <;> simp
    · simp [h2, h3]

lemma likeMatch_lit_cons {c : Char} (hm : noMetaChar c = true) (p : List Char)
    (c2 : Char) (t : List Char) :
    likeMatch (c :: p) (c2 :: t) = (c == c2 && likeMatch p t) := by
  simp only [noMetaChar, Bool.and_eq_true, Bool.not_eq_true', beq_eq_false_iff_ne] at hm
  rw [likeMatch.eq_def]
  simp [hm.1.1, hm.1.2, hm.2]

lemma likeMatch_pct_only : ∀ t : List Char, likeMatch ['%'] t = true
  | [] => by rw [likeMatch_pct_nil, likeMatch_nil]; rfl
  | c :: t => by
    rw [likeMatch_pct_cons, likeMatch_pct_only t, Bool.or_true]

lemma likeMatch_pct_iff (p : List Char) :
    ∀ t : List Char, (likeMatch ('%' :: p) t = true ↔ ∃ t1 t2, t = t1 ++ t2 ∧ likeMatch p t2 = true)
  | [] => by
    rw [likeMatch_pct_nil]
    constructor
    · intro h
      exact ⟨[], [], rfl, h⟩
    · rintro ⟨t1, t2, he, h⟩
      obtain ⟨rfl, rfl⟩ := List.append_eq_nil.mp he.symm
      exact h
  | c :: t => by
    rw [likeMatch_pct_cons, Bool.or_eq_true]
    constructor
    · rintro (h | h)
      · exact ⟨[], c :: t, rfl, h⟩
      · obtain ⟨t1, t2, rfl, h2⟩ := (likeMatch_pct_iff p t).mp h
        exact ⟨c :: t1, t2, rfl, h2⟩
    · rintro ⟨t1, t2, he, h2⟩
      cases t1 with
      | nil => exact Or.inl (by simpa using he ▸ h2)
      | cons x t1 =>
        have h3 : t = t1 ++ t2 := (List.cons.inj he).2
        exact Or.inr ((likeMatch_pct_iff p t).mpr ⟨t1, t2, h3, h2⟩)

lemma likeMatch_lit_iff : ∀ (s : List Char), s.all noMetaChar = true →
    ∀ t : List Char, (likeMatch (s ++ ['%']) t = true ↔ ∃ t2, t = s ++ t2)
  | [], _, t => by
    simp only [List.nil_append]
    exact ⟨fun _ => ⟨t, rfl⟩, fun _ => likeMatch_pct_only t⟩
  | c :: s, hs, t => by
    have hs' := hs
    simp only [List.all_cons, Bool.and_eq_true] at hs'
    have hc : noMetaChar c = true := hs'.1
    have hs2 : s.all noMetaChar = true := hs'.2
    have hcp : c ≠ '%' := by
      intro h
      rw [h] at hc
      exact absurd hc (by decide)
    cases t with
    | nil =>
      rw [List.cons_append, likeMatch_lit_nil hcp]
      simp
    | cons c2 t =>
      rw [List.cons_append, likeMatch_lit_cons hc]
      constructor
      · intro h
        have h1 : c = c2 := by
          have := Bool.and_elim_left h
          exact beq_iff_eq.mp this
        obtain ⟨t2, rfl⟩ := (likeMatch_lit_iff s hs2 t).mp (Bool.and_elim_right h)
        exact ⟨t2, by rw [h1, List.cons_append]⟩
      · rintro ⟨t2, he⟩
        rw [List.cons_append] at he
        have h1 : c2 = c := (List.cons.inj he).1
        have h2 : t = s ++ t2 := (List.cons.inj he).2
        rw [h1, beq_self_eq_true, Bool.true_and]
        exact (likeMatch_lit_iff s hs2 t).mpr ⟨t2, h2⟩

lemma likeMatch_infix_iff (s t : List Char) (hs : s.all noMetaChar = true) :
    likeMatch ('%' :: (s ++ ['%'])) t = true ↔ s <:+: t := by
  rw [likeMatch_pct_iff]
  constructor
  · rintro ⟨t1, t2, rfl, h⟩
    obtain ⟨t3, rfl⟩ := (likeMatch_lit_iff s hs t2).mp h
    exact ⟨t1, t3, by simp⟩
  · rintro ⟨u, v, rfl⟩
    exact ⟨u, s ++ v, by simp, (likeMatch_lit_iff s hs (s ++ v)).mpr ⟨v, rfl⟩⟩

lemma noMetaChar_toLower {c : Char} (h : noMetaChar c = true) :
    noMetaChar (Char.toLower c) = true := by
  rcases toLower_eq_self_or c with he | he
  · rw [he]; exact h
  · simp only [noMetaChar, Bool.and_eq_true, Bool.not_eq_true', beq_eq_false_iff_ne]
    refine ⟨⟨?_, ?_⟩, ?_⟩ <;> intro hx <;> rw [hx] at he <;> revert he <;> decide

lemma ilike_pattern_iff (text search : String) (hs : noLikeMeta search = true) :
    (ilike text ("%" ++ search ++ "%") = true ↔
      (search.data.map Char.toLower) <:+: (text.data.map Char.toLower)) := by
  unfold ilike
  have hdata : ("%" ++ search ++ "%").data = '%' :: search.data ++ ['%'] := by
    simp [String.data_append]
  rw [hdata]
  have hmap : (('%' :: search.data ++ ['%']).map Char.toLower) =
      '%' :: (search.data.map Char.toLower) ++ ['%'] := by
    simp
  rw [hmap]
  apply likeMatch_infix_iff
  unfold noLikeMeta at hs
  rw [List.all_map]
  rw [List.all_eq_true] at hs ⊢
  intro x hx
  exact noMetaChar_toLower (hs x hx)

lemma rowMatchesSearch_eq_containsCI (search : String) (r : Row)
    (hs : noLikeMeta search = true) :
    rowMatchesSearch search r =
      (containsCI r.item_name search || containsCI r.location search) := by
  unfold rowMatchesSearch containsCI
  rw [Bool.eq_iff_iff]
  simp only [Bool.or_eq_true, decide_eq_true_eq]
  rw [ilike_pattern_iff r.item_name search hs, ilike_pattern_iff r.location search hs]

/-- C5 (amended): listing with the empty search returns all stored items and
listing with a non-empty search free of the `LIKE` metacharacters `%`, `_`
and backslash returns exactly the items whose name or location
case-insensitively contains the search as a substring; in both cases the
result is ordered by `created_at` descending. (For searches containing a
metacharacter the code's `ILIKE` filter applies wildcard semantics instead —
see the counterexample.) -/
theorem view_items_spec (db : List Row) (search : String)
    (hs : noLikeMeta search = true) :
    (search = "" → List.Perm (view_items db search) db) ∧
    (search ≠ "" → List.Perm (view_items db search)
      (db.filter (fun r => containsCI r.item_name search || containsCI r.location search))) ∧
    (view_items db search).Pairwise (fun a b => b.created_at ≤ a.created_at) := by
  refine ⟨?_, ?_, ?_⟩
  · intro he
    unfold view_items
    rw [if_pos he]
    exact List.mergeSort_perm db byCreatedDesc
  · intro hne
    unfold view_items
    rw [if_neg hne]
    have hf : db.filter (rowMatchesSearch search) =
        db.filter (fun r => containsCI r.item_name search || containsCI r.location search) :=
      List.filter_congr (fun r _ => rowMatchesSearch_eq_containsCI search r hs)
    rw [hf]
    exact List.mergeSort_perm _ byCreatedDesc
  · unfold view_items
    have htrans : ∀ a b c : Row, byCreatedDesc a b → byCreatedDesc b c → byCreatedDesc a c := by
      intro a b c hab hbc
      unfold byCreatedDesc at hab hbc ⊢
      simp only [decide_eq_true_eq] at hab hbc ⊢
      omega
    have htotal : ∀ a b : Row, byCreatedDesc a b || byCreatedDesc b a := by
      intro a b
      unfold byCreatedDesc
      simp only [Bool.or_eq_true, decide_eq_true_eq]
      omega
    have hsorted := List.sorted_mergeSort htrans htotal
      (if search = "" then db else db.filter (rowMatchesSearch search))
    exact hsorted.imp (fun hab => by
      simpa only [byCreatedDesc, decide_eq_true_eq] using hab)

/-- Counterexample to C5 as stated: the search string `"_"` is an `ILIKE`
single-character wildcard, so the row named `"ab"` is returned although
neither its name nor its location contains `"_"` as a substring. -/
theorem view_items_wildcard_cex :
    view_items [rowAB] "_" = [rowAB] ∧
    containsCI rowAB.item_name "_" = false ∧
    containsCI rowAB.location "_" = false := by
  refine ⟨?_, by decide, by decide⟩
  have hm : rowMatchesSearch "_" rowAB = true := by
    simp [rowMatchesSearch, rowAB, ilike, likeMatch]
  show (List.filter (rowMatchesSearch "_") [rowAB]).mergeSort byCreatedDesc = [rowAB]
  rw [show List.filter (rowMatchesSearch "_") [rowAB] = [rowAB] from by
        simp [List.filter_cons, hm]]
  exact List.mergeSort_singleton rowAB

/-- Closed instance of C5 (amended): the empty search over one row, and the
metacharacter-free search `"wallet"` over a two-row store. -/
theorem view_items_spec_witness :
    List.Perm (view_items [rowAB] "") [rowAB] ∧
    List.Perm (view_items [rowAB, rowWallet] "wallet")
      (List.filter (fun r => containsCI r.item_name "wallet" || containsCI r.location "wallet")
        [rowAB, rowWallet]) ∧
    (view_items [rowAB, rowWallet] "wallet").Pairwise
      (fun a b => b.created_at ≤ a.created_at) :=
  ⟨(view_items_spec [rowAB] "" (by decide)).1 rfl,
   (view_items_spec [rowAB, rowWallet] "wallet" (by decide)).2.1 (by decide),
   (view_items_spec [rowAB, rowWallet] "wallet" (by decide)).2.2⟩

end FindersNotKeepers
